import Mathlib

/-
Verification development for the basecamp federated key-value query service
(src/basecamp). The definitions below are a shallow embedding of
src/basecamp/src/server/basecamp_service_impl.cpp together with the data
model of include/basecamp_service_impl.h. Machine int32 values are modelled
as Int (no arithmetic in the verified paths can overflow 32 bits for the
configured ranges), timestamps as Int, and the C++ std::deque cache as a
Lean List. Wall-clock readings taken during one handler invocation are
modelled by a single instant (the embedding is instantaneous), so elapsed
processing times are 0 and the 4-second in-handler timeout check always
passes.
-/

namespace Basecamp

/-- Nested object sub-structure of a DataItem (proto message NestedObject). -/
structure NestedObject where
  name : String
  tags : List String
  properties : List (String × String)
  created_at : Int
  updated_at : Int
deriving DecidableEq, Repr

/-- The tagged union carried by DataItem.value. The C++ double is modelled as
an exact rational: the only double ever computed by the verified code is
key * 1.5 with a small integer key, which IEEE doubles represent exactly. -/
inductive DataValue where
  | stringValue : String → DataValue
  | doubleValue : ℚ → DataValue
  | boolValue : Bool → DataValue
  | objectValue : NestedObject → DataValue
  | binaryValue : String → DataValue
deriving DecidableEq, Repr, Inhabited

/-- Unit of storage and transport (proto message DataItem). -/
structure DataItem where
  key : Int
  source_node : String
  timestamp : Int
  data_type : String
  metadata : List (String × String)
  value : DataValue
deriving DecidableEq, Repr, Inhabited

/-- Client-facing query (proto message QueryRequest). -/
structure QueryRequest where
  query_id : String
  client_id : String
  query_type : String
  key : Int
  range_start : Int
  range_end : Int
  string_param : String
deriving DecidableEq, Repr

/-- Client-facing reply (proto message QueryResponse). -/
structure QueryResponse where
  query_id : String
  results : List DataItem
  success : Bool
  error_message : String
  timestamp : Int
  processing_time : Int
  from_cache : Bool
deriving DecidableEq, Repr

/-- A QueryResponse with every field at its proto default. -/
def emptyQueryResponse : QueryResponse :=
  { query_id := "", results := [], success := false, error_message := "",
    timestamp := 0, processing_time := 0, from_cache := false }

/-- Inter-node request (proto message DataRequest), with exactly the fields
QueryPeers populates. -/
structure DataRequest where
  request_id : String
  requester_id : String
  key : Int
  query_type : String
  range_start : Int
  range_end : Int
  timestamp : Int
  hop_count : Nat
  max_hops : Nat
  route_path : String
  forward_to_peers : Bool
  visited_nodes : List String
  query_context : List (String × String)
deriving DecidableEq, Repr

/-- Inter-node reply (proto message DataResponse). -/
structure DataResponse where
  request_id : String
  data_items : List DataItem
  responder_id : String
  route_path : String
  contributing_nodes : List String
  success : Bool
  error_message : String
  timestamp : Int
  processing_time : Int
deriving DecidableEq, Repr

/-- A DataResponse with every field at its proto default. -/
def emptyDataResponse : DataResponse :=
  { request_id := "", data_items := [], responder_id := "", route_path := "",
    contributing_nodes := [], success := false, error_message := "",
    timestamp := 0, processing_time := 0 }

/-- Transport-level RPC status returned to gRPC. -/
inductive GrpcStatus where
  | ok : GrpcStatus
  | internal : String → GrpcStatus
deriving DecidableEq, Repr

/-! ## Value codec

Modelled from the spec: the serializer in the source is
`DataItem::SerializeAsString` / `ParseFromString` from the
protobuf-generated code, which is not part of the repository sources
available here (only basecamp.pb.h is referenced). Section 4.2 of the
specification requires a deterministic canonical binary encoding that
round-trips; the length-prefixed tagged encoding below follows that
contract, with varint-encoded naturals, zigzag-encoded integers and a
one-byte discriminator for the DataItem.value union. -/

/-- Varint encoding of a natural number, 7 bits per byte, low bits first. -/
def encNat (n : Nat) : List Nat :=
  if n < 128 then [n] else (n % 128 + 128) :: encNat (n / 128)
termination_by n
decreasing_by
  exact Nat.div_lt_self (by omega) (by omega)

/-- Varint decoder; returns the value and the unconsumed bytes. -/
def decNat : List Nat → Option (Nat × List Nat)
  | [] => none
  | b :: rest =>
    if b < 128 then some (b, rest)
    else
      match decNat rest with
      | some (n, r) => some (n * 128 + (b - 128), r)
      | none => none

theorem decNat_encNat (n : Nat) (rest : List Nat) :
    decNat (encNat n ++ rest) = some (n, rest) := by
  induction n using Nat.strong_induction_on with
  | _ n ih =>
    by_cases h : n < 128
    · rw [encNat, if_pos h]
      simp [decNat, h]
    · rw [encNat, if_neg h]
      have hb : ¬ (n % 128 + 128 < 128) := by omega
      have ih2 := ih (n / 128) (Nat.div_lt_self (by omega) (by omega))
      simp only [List.cons_append, decNat, if_neg hb, List.append_eq, ih2]
      have hmod : n / 128 * 128 + (n % 128 + 128 - 128) = n := by omega
      rw [hmod]

/-- Zigzag map from Int onto Nat (nonnegative to even, negative to odd). -/
def intToNat (i : Int) : Nat :=
  if 0 ≤ i then 2 * i.toNat else 2 * (-i).toNat - 1

/-- Inverse of the zigzag map. -/
def natToInt (n : Nat) : Int :=
  if n % 2 = 0 then ((n / 2 : Nat) : Int) else -(((n + 1) / 2 : Nat) : Int)

theorem natToInt_intToNat (i : Int) : natToInt (intToNat i) = i := by
  unfold natToInt intToNat
  by_cases h : 0 ≤ i
  · rw [if_pos h, if_pos (by omega)]
    omega
  · rw [if_neg h]
    have h1 : 1 ≤ (-i).toNat := by omega
    rw [if_neg (by omega)]
    omega

/-- Zigzag varint encoding of an integer. -/
def encInt (i : Int) : List Nat := encNat (intToNat i)

/-- Integer decoder. -/
def decInt (bs : List Nat) : Option (Int × List Nat) :=
  match decNat bs with
  | some (n, r) => some (natToInt n, r)
  | none => none

theorem decInt_encInt (i : Int) (rest : List Nat) :
    decInt (encInt i ++ rest) = some (i, rest) := by
  unfold encInt decInt
  rw [decNat_encNat]
  simp [natToInt_intToNat]

/-- A character is encoded as the varint of its code point. -/
def encChar (c : Char) : List Nat := encNat c.toNat

/-- Character decoder. -/
def decChar (bs : List Nat) : Option (Char × List Nat) :=
  match decNat bs with
  | some (n, r) => some (Char.ofNat n, r)
  | none => none

theorem decChar_encChar (c : Char) (rest : List Nat) :
    decChar (encChar c ++ rest) = some (c, rest) := by
  unfold encChar decChar
  rw [decNat_encNat]
  simp [Char.ofNat_toNat]

/-- A list is encoded as its length followed by the encoded elements. -/
def encList (enc : α → List Nat) (xs : List α) : List Nat :=
  encNat xs.length ++ xs.foldr (fun a acc => enc a ++ acc) []

/-- Decode exactly n elements. -/
def decListAux (dec : List Nat → Option (α × List Nat)) :
    Nat → List Nat → Option (List α × List Nat)
  | 0, bs => some ([], bs)
  | n + 1, bs =>
    match dec bs with
    | some (a, r) =>
      match decListAux dec n r with
      | some (as, r2) => some (a :: as, r2)
      | none => none
    | none => none

/-- List decoder. -/
def decList (dec : List Nat → Option (α × List Nat)) (bs : List Nat) :
    Option (List α × List Nat) :=
  match decNat bs with
  | some (n, r) => decListAux dec n r
  | none => none

theorem decListAux_enc (dec : List Nat → Option (α × List Nat))
    (enc : α → List Nat)
    (h : ∀ a rest, dec (enc a ++ rest) = some (a, rest))
    (xs : List α) (rest : List Nat) :
    decListAux dec xs.length ((xs.foldr (fun a acc => enc a ++ acc) []) ++ rest)
      = some (xs, rest) := by
  induction xs with
  | nil => simp [decListAux]
  | cons a as ihs =>
    simp only [List.length_cons, List.foldr_cons, decListAux, List.append_assoc, h, ihs]

theorem decList_encList (dec : List Nat → Option (α × List Nat))
    (enc : α → List Nat)
    (h : ∀ a rest, dec (enc a ++ rest) = some (a, rest))
    (xs : List α) (rest : List Nat) :
    decList dec (encList enc xs ++ rest) = some (xs, rest) := by
  unfold encList decList
  rw [List.append_assoc, decNat_encNat]
  exact decListAux_enc dec enc h xs rest

/-- A string is encoded as its character list. -/
def encString (s : String) : List Nat := encList encChar s.data

/-- String decoder. -/
def decString (bs : List Nat) : Option (String × List Nat) :=
  match decList decChar bs with
  | some (cs, r) => some (String.mk cs, r)
  | none => none

theorem decString_encString (s : String) (rest : List Nat) :
    decString (encString s ++ rest) = some (s, rest) := by
  unfold encString decString
  rw [decList_encList decChar encChar decChar_encChar]

/-- A string pair (metadata or properties entry). -/
def encPairS (p : String × String) : List Nat :=
  encString p.1 ++ encString p.2

/-- String pair decoder. -/
def decPairS (bs : List Nat) : Option ((String × String) × List Nat) :=
  match decString bs with
  | some (a, r1) =>
    match decString r1 with
    | some (b, r2) => some ((a, b), r2)
    | none => none
  | none => none

theorem decPairS_encPairS (p : String × String) (rest : List Nat) :
    decPairS (encPairS p ++ rest) = some (p, rest) := by
  unfold encPairS decPairS
  simp only [List.append_assoc, decString_encString]

/-- A rational (the exact model of the C++ double) is encoded as its reduced
numerator and denominator. -/
def encRat (q : ℚ) : List Nat := encInt q.num ++ encNat q.den

/-- Rational decoder. -/
def decRat (bs : List Nat) : Option (ℚ × List Nat) :=
  match decInt bs with
  | some (n, r1) =>
    match decNat r1 with
    | some (d, r2) => some ((n : ℚ) / (d : ℚ), r2)
    | none => none
  | none => none

theorem decRat_encRat (q : ℚ) (rest : List Nat) :
    decRat (encRat q ++ rest) = some (q, rest) := by
  unfold encRat decRat
  simp only [List.append_assoc, decInt_encInt, decNat_encNat]
  rw [Rat.num_div_den]

/-- Nested object encoder: name, tags, properties, created-at, updated-at. -/
def encObj (o : NestedObject) : List Nat :=
  encString o.name ++ (encList encString o.tags ++ (encList encPairS o.properties
    ++ (encInt o.created_at ++ encInt o.updated_at)))

/-- Nested object decoder. -/
def decObj (bs : List Nat) : Option (NestedObject × List Nat) :=
  match decString bs with
  | some (nm, r1) =>
    match decList decString r1 with
    | some (tg, r2) =>
      match decList decPairS r2 with
      | some (pr, r3) =>
        match decInt r3 with
        | some (ca, r4) =>
          match decInt r4 with
          | some (ua, r5) => some (⟨nm, tg, pr, ca, ua⟩, r5)
          | none => none
        | none => none
      | none => none
    | none => none
  | none => none

theorem decObj_encObj (o : NestedObject) (rest : List Nat) :
    decObj (encObj o ++ rest) = some (o, rest) := by
  unfold encObj decObj
  simp only [List.append_assoc, decString_encString,
    decList_encList decString encString decString_encString,
    decList_encList decPairS encPairS decPairS_encPairS, decInt_encInt]

/-- Union encoder: a one-byte tag followed by the payload. -/
def encValue : DataValue → List Nat
  | .stringValue s => 0 :: encString s
  | .doubleValue q => 1 :: encRat q
  | .boolValue b => 2 :: [if b then 1 else 0]
  | .objectValue o => 3 :: encObj o
  | .binaryValue s => 4 :: encString s

/-- Union decoder. -/
def decValue (bs : List Nat) : Option (DataValue × List Nat) :=
  match bs with
  | [] => none
  | t :: rest =>
    if t = 0 then
      match decString rest with
      | some (s, r) => some (.stringValue s, r)
      | none => none
    else if t = 1 then
      match decRat rest with
      | some (q, r) => some (.doubleValue q, r)
      | none => none
    else if t = 2 then
      match rest with
      | [] => none
      | b :: r => some (.boolValue (b = 1), r)
    else if t = 3 then
      match decObj rest with
      | some (o, r) => some (.objectValue o, r)
      | none => none
    else if t = 4 then
      match decString rest with
      | some (s, r) => some (.binaryValue s, r)
      | none => none
    else none

theorem decValue_encValue (v : DataValue) (rest : List Nat) :
    decValue (encValue v ++ rest) = some (v, rest) := by
  cases v with
  | stringValue s => simp [encValue, decValue, decString_encString]
  | doubleValue q => simp [encValue, decValue, decRat_encRat]
  | boolValue b => cases b <;> simp [encValue, decValue]
  | objectValue o => simp [encValue, decValue, decObj_encObj]
  | binaryValue s => simp [encValue, decValue, decString_encString]

/-- Full DataItem encoder: the six fields in schema order. -/
def encDataItem (it : DataItem) : List Nat :=
  encInt it.key ++ (encString it.source_node ++ (encInt it.timestamp
    ++ (encString it.data_type ++ (encList encPairS it.metadata
    ++ encValue it.value))))

/-- Full DataItem decoder. -/
def decDataItem (bs : List Nat) : Option (DataItem × List Nat) :=
  match decInt bs with
  | some (k, r1) =>
    match decString r1 with
    | some (sn, r2) =>
      match decInt r2 with
      | some (ts, r3) =>
        match decString r3 with
        | some (dt, r4) =>
          match decList decPairS r4 with
          | some (md, r5) =>
            match decValue r5 with
            | some (v, r6) => some (⟨k, sn, ts, dt, md, v⟩, r6)
            | none => none
          | none => none
        | none => none
      | none => none
    | none => none
  | none => none

theorem decDataItem_encDataItem (it : DataItem) (rest : List Nat) :
    decDataItem (encDataItem it ++ rest) = some (it, rest) := by
  unfold encDataItem decDataItem
  simp only [List.append_assoc, decInt_encInt, decString_encString,
    decList_encList decPairS encPairS decPairS_encPairS, decValue_encValue]

/-- SerializeDataItem from the source, over the modelled codec. -/
def serializeDataItem (it : DataItem) : List Nat := encDataItem it

/-- DeserializeDataItem from the source: parse, defaulting on failure the way
ParseFromString leaves a default message. -/
def deserializeDataItem (bs : List Nat) : DataItem :=
  match decDataItem bs with
  | some (it, _) => it
  | none => default

theorem deserialize_serialize (it : DataItem) :
    deserializeDataItem (serializeDataItem it) = it := by
  unfold deserializeDataItem serializeDataItem
  rw [show encDataItem it = encDataItem it ++ [] by simp,
    decDataItem_encDataItem]

/-! ## Local store

The shared-memory segment maps int keys to serialized DataItem bytes
(SharedMemoryMap in the header). The named mutex serialises access; in this
sequential embedding each operation is a single atomic map update or read. -/

/-- The shared-memory map: key to serialized bytes. -/
def Store := Int → Option (List Nat)

/-- An empty segment. -/
def emptyStore : Store := fun _ => none

/-- StoreDataInSharedMemory: serialize, then insert-or-assign. In the source
this returns false only when an exception escapes; the exception-free path is
modelled here and always succeeds. -/
def storeData (s : Store) (key : Int) (it : DataItem) : Store :=
  fun k => if k = key then some (serializeDataItem it) else s k

/-- RetrieveDataFromSharedMemory: find, then deserialize; absent keys fail
silently. -/
def retrieveData (s : Store) (key : Int) : Option DataItem :=
  (s key).map deserializeDataItem

/-- The closed integer interval [a, b] as a list, empty when b < a. -/
def intRange (a b : Int) : List Int :=
  (List.range (b + 1 - a).toNat).map (fun i : Nat => a + (i : Int))

/-- The data-type tag table of CreateRandomDataItem. -/
def dataTypes : List String := ["user", "product", "transaction", "event", "log"]

/-- CreateRandomDataItem: the synthetic item seeded for a key. Modelled for
nonnegative keys, where the C++ % on int agrees with Int.emod; the single
wall-clock instant now stands for the GetCurrentTimestamp readings. -/
def createRandomDataItem (node : String) (now : Int) (key : Int) : DataItem :=
  { key := key
    source_node := node
    timestamp := now
    data_type := dataTypes.getD (key.emod 5).toNat ""
    metadata := [("created_by", node), ("version", "1.0")]
    value :=
      if key.emod 5 = 0 then
        .stringValue ("String value for key " ++ toString key ++ " from " ++ node)
      else if key.emod 5 = 1 then
        .doubleValue ((key : ℚ) * (3 / 2))
      else if key.emod 5 = 2 then
        .boolValue (key.emod 2 = 0)
      else if key.emod 5 = 3 then
        .objectValue
          { name := "Object_" ++ toString key
            tags := ["tag1", "tag2"]
            properties := [("property1", "value1"), ("property2", "value2")]
            created_at := now - 3600000
            updated_at := now }
      else
        .binaryValue ("Binary data for key " ++ toString key) }

/-- InitializeTestData: seed one synthetic item per key of the closed data
range into the store. -/
def initializeTestData (node : String) (now : Int) (lo hi : Int) (s : Store) : Store :=
  (intRange lo hi).foldl (fun st k => storeData st k (createRandomDataItem node now k)) s

/-! ## Query cache (portal only) -/

/-- CacheEntry from the header: query id, cached response, insertion time.
Timestamps are in seconds, matching the duration_cast in isExpired. -/
structure CacheEntry where
  query_id : String
  response : QueryResponse
  timestamp : Int
deriving DecidableEq, Repr

/-- CacheEntry.isExpired: age strictly above the TTL. -/
def isExpired (now ttl : Int) (e : CacheEntry) : Bool :=
  decide (now - e.timestamp > ttl)

/-- CleanCache: drop every expired entry. -/
def cleanCache (now ttl : Int) (c : List CacheEntry) : List CacheEntry :=
  c.filter (fun e => !isExpired now ttl e)

/-- The scan loop of CheckCache: first entry matching the query id, skipping
expired ones; a hit is returned with its from-cache flag set. -/
def scanCache (now ttl : Int) (qid : String) : List CacheEntry → Option QueryResponse
  | [] => none
  | e :: rest =>
    if e.query_id = qid then
      if isExpired now ttl e then scanCache now ttl qid rest
      else some { e.response with from_cache := true }
    else scanCache now ttl qid rest

/-- CheckCache: clean, then scan. Returns the hit (if any) and the cache as
the deque is left by the call. -/
def checkCache (now ttl : Int) (c : List CacheEntry) (qid : String) :
    Option QueryResponse × List CacheEntry :=
  (scanCache now ttl qid (cleanCache now ttl c), cleanCache now ttl c)

/-- AddToCache: clean, pop the front when at capacity, append the new entry. -/
def addToCache (now ttl : Int) (size : Nat) (c : List CacheEntry)
    (qid : String) (resp : QueryResponse) : List CacheEntry :=
  (if size ≤ (cleanCache now ttl c).length then (cleanCache now ttl c).tail
   else cleanCache now ttl c)
  ++ [{ query_id := qid, response := resp, timestamp := now }]

/-- One serialized operation on the cache mutex. -/
inductive CacheOp where
  | insert : Int → String → QueryResponse → CacheOp
  | lookup : Int → String → CacheOp

/-- Effect of a cache operation on the deque. -/
def applyCacheOp (size : Nat) (ttl : Int) (c : List CacheEntry) : CacheOp → List CacheEntry
  | .insert now qid resp => addToCache now ttl size c qid resp
  | .lookup now qid => (checkCache now ttl c qid).2

/-! ## Topology, routing and the inter-node handlers -/

/-- One node of the static topology: id, closed data range, connects-to. -/
structure TNode where
  id : String
  lo : Int
  hi : Int
  peers : List String
deriving DecidableEq, Repr

/-- The static topology. -/
def Topo := List TNode

/-- Configuration lookup of a node id. -/
def findNode (topo : Topo) (nid : String) : Option TNode :=
  List.find? (fun n => n.id = nid) topo

/-- Per-node stores, keyed by node id. -/
def Stores := String → Store

/-- The range guard and local read of ProcessForwardedRequest. The guard has
branches for exact, range and all only; any other query type (including
write) leaves in-range false and contributes nothing. -/
def processForwardedItems (lo hi : Int) (lookup : Int → Option DataItem)
    (req : DataRequest) : List DataItem :=
  let inRange : Bool :=
    if req.query_type = "exact" then decide (req.key ≥ lo ∧ req.key ≤ hi)
    else if req.query_type = "range" then decide (req.range_start ≤ hi ∧ req.range_end ≥ lo)
    else decide (req.query_type = "all")
  if !inRange then []
  else if req.query_type = "exact" then (lookup req.key).toList
  else if req.query_type = "range" then
    (intRange (max req.range_start lo) (min req.range_end hi)).filterMap lookup
  else if req.query_type = "all" then (intRange lo hi).filterMap lookup
  else []

/-- The routing test of ForwardRequestToPeers for one peer: its range must
contain the key (exact), overlap the query range (range), or the query is
all; peers missing from the configuration are skipped. No branch accepts
write. -/
def shouldForwardPeer (topo : Topo) (pid : String) (req : DataRequest) : Bool :=
  match findNode topo pid with
  | none => false
  | some p =>
    if req.query_type = "exact" then decide (p.lo ≤ req.key ∧ req.key ≤ p.hi)
    else if req.query_type = "range" then
      decide (req.range_start ≤ p.hi ∧ req.range_end ≥ p.lo)
    else decide (req.query_type = "all")

/-- The routing test of QueryPeers for one peer: as above, but all and write
queries go to every peer. -/
def shouldQueryPeer (topo : Topo) (pid : String) (req : QueryRequest) : Bool :=
  match findNode topo pid with
  | none => false
  | some p =>
    if req.query_type = "exact" then decide (p.lo ≤ req.key ∧ req.key ≤ p.hi)
    else if req.query_type = "range" then
      decide (req.range_start ≤ p.hi ∧ req.range_end ≥ p.lo)
    else decide (req.query_type = "all" ∨ req.query_type = "write")

/-- The first-hop DataRequest built by QueryPeers at the portal. Note that
string-param is not among the copied fields. -/
def mkPortalDataRequest (nid : String) (now : Int) (req : QueryRequest) : DataRequest :=
  { request_id := req.query_id
    requester_id := nid
    key := req.key
    query_type := req.query_type
    range_start := req.range_start
    range_end := req.range_end
    timestamp := now
    hop_count := 0
    max_hops := 3
    route_path := nid
    forward_to_peers := true
    visited_nodes := [nid]
    query_context := [("origin", "portal"), ("client_id", req.client_id)] }

/-- The route path update of HandleGatherData. -/
def extendRoute (rp nid : String) : String :=
  (if rp = "" then "" else rp ++ "->") ++ nid

/-- The forwarded copy of an incoming DataRequest built by HandleGatherData:
hop count incremented, route path extended, this node appended to the
visited set. -/
def mkForwardedRequest (nid : String) (req : DataRequest) : DataRequest :=
  { req with
    hop_count := req.hop_count + 1
    route_path := extendRoute req.route_path nid
    visited_nodes := req.visited_nodes ++ [nid] }

/-- HandleGatherData plus ForwardRequestToPeers over the whole topology, by
recursion on a fuel bound (any fuel at least max-hops is exact; fuel 0 is an
unreachable artifact returning a failed empty response). The merge keeps the
data items and contributing nodes of successful peer responses only; the
completion order of the concurrent tasks is modelled as peer-list order,
which the spec leaves unspecified. -/
def gatherData (topo : Topo) (stores : Stores) :
    Nat → String → DataRequest → DataResponse
  | 0, nid, _ => { emptyDataResponse with responder_id := nid }
  | fuel + 1, nid, req =>
    match findNode topo nid with
    | none => { emptyDataResponse with responder_id := nid }
    | some node =>
      let route := extendRoute req.route_path nid
      let localItems := processForwardedItems node.lo node.hi (retrieveData (stores nid)) req
      let base : DataResponse :=
        { request_id := req.request_id
          data_items := localItems
          responder_id := nid
          route_path := route
          contributing_nodes := [nid]
          success := true
          error_message := ""
          timestamp := req.timestamp
          processing_time := 0 }
      if req.forward_to_peers then
        let fwd := mkForwardedRequest nid req
        if fwd.hop_count < fwd.max_hops then
          let targets := node.peers.filter
            (fun p => !fwd.visited_nodes.contains p && shouldForwardPeer topo p fwd)
          let good := (targets.map (fun p => gatherData topo stores fuel p fwd)).filter
            (fun r => r.success)
          { base with
            data_items := base.data_items ++ (good.map (fun r => r.data_items)).flatten
            contributing_nodes :=
              base.contributing_nodes ++ (good.map (fun r => r.contributing_nodes)).flatten }
        else base
      else base

/-- QueryLocalData at the portal: range guard (which admits write), then
read, write, or range/all iteration. Returns the store after the call and
the results appended to the response. -/
def queryLocalData (nid : String) (lo hi : Int) (now : Int) (s : Store)
    (req : QueryRequest) : Store × List DataItem :=
  let inRange : Bool :=
    if req.query_type = "exact" ∨ req.query_type = "write" then
      decide (req.key ≥ lo ∧ req.key ≤ hi)
    else if req.query_type = "range" then
      decide (req.range_start ≤ hi ∧ req.range_end ≥ lo)
    else decide (req.query_type = "all")
  if !inRange then (s, [])
  else if req.query_type = "exact" then (s, (retrieveData s req.key).toList)
  else if req.query_type = "write" then
    let item : DataItem :=
      { key := req.key
        source_node := nid
        timestamp := now
        data_type := "string"
        metadata := [("created_by", nid), ("version", "1.0")]
        value := .stringValue req.string_param }
    (storeData s req.key item, [item])
  else if req.query_type = "range" then
    (s, (intRange (max req.range_start lo) (min req.range_end hi)).filterMap (retrieveData s))
  else if req.query_type = "all" then (s, (intRange lo hi).filterMap (retrieveData s))
  else (s, [])

/-- The per-process state HandleQueryData reads: identity, range, portal
flag, cache configuration and current cache. -/
structure PortalCtx where
  node_id : String
  lo : Int
  hi : Int
  is_portal : Bool
  cache_size : Nat
  cache_ttl : Int
  cache : List CacheEntry
  peers : List String
deriving Repr

/-- Everything observable after a QueryData call: the reply, the transport
status, the cache and the stores as the call leaves them. -/
structure QueryOutcome where
  response : QueryResponse
  status : GrpcStatus
  cache : List CacheEntry
  stores : Stores

/-- HandleQueryData: portal guard, cache lookup, local query, peer fan-out
(QueryPeers), then success, cache insert and reply. The in-handler 4-second
timeout check always passes in this instantaneous embedding. -/
def handleQueryData (topo : Topo) (stores : Stores) (st : PortalCtx) (now : Int)
    (fuel : Nat) (req : QueryRequest) : QueryOutcome :=
  if st.is_portal = false then
    { response := { emptyQueryResponse with
        success := false
        error_message := "This node is not the portal" }
      status := .ok
      cache := st.cache
      stores := stores }
  else
    let checked := checkCache now st.cache_ttl st.cache req.query_id
    match checked.1 with
    | some cached =>
      { response := { cached with processing_time := 0 }
        status := .ok
        cache := checked.2
        stores := stores }
    | none =>
      let localQ := queryLocalData st.node_id st.lo st.hi now (stores st.node_id) req
      let stores1 : Stores := fun n => if n = st.node_id then localQ.1 else stores n
      let dreq := mkPortalDataRequest st.node_id now req
      let targets := st.peers.filter (fun p => shouldQueryPeer topo p req)
      let good := (targets.map (fun p => gatherData topo stores1 fuel p dreq)).filter
        (fun r => r.success)
      let resp : QueryResponse :=
        { query_id := req.query_id
          results := localQ.2 ++ (good.map (fun r => r.data_items)).flatten
          success := true
          error_message := ""
          timestamp := now
          processing_time := 0
          from_cache := false }
      { response := resp
        status := .ok
        cache := addToCache now st.cache_ttl st.cache_size checked.2 req.query_id resp
        stores := stores1 }

/-! ## Exception layering of HandleGatherData

The source catches exceptions at three distinct levels:
RetrieveDataFromSharedMemory returns found = false, ForwardRequestToPeers
swallows the exception after logging, and the HandleGatherData handler turns
the exception into an in-band error. The environment below records at which
of the three levels an exception is raised during one invocation. -/

/-- Which try blocks raise during one GatherData invocation. -/
structure ExcEnv where
  lookupExc : Option String
  fanoutExc : Option String
  topExc : Option String
deriving Repr

/-- RetrieveDataFromSharedMemory under the environment: a raised exception is
caught inside the function, which then reports the key as absent. -/
def retrieveDataE (env : ExcEnv) (s : Store) (key : Int) : Option DataItem :=
  match env.lookupExc with
  | some _ => none
  | none => retrieveData s key

/-- ForwardRequestToPeers under the environment: a raised exception is caught
by the catch at the end of the function and swallowed, losing the merge; the
exception-free merge result is passed in (peer replies abstracted). -/
def forwardRequestToPeersE (env : ExcEnv) (peerItems : List DataItem)
    (peerNodes : List String) : List DataItem × List String :=
  match env.fanoutExc with
  | some _ => ([], [])
  | none => (peerItems, peerNodes)

/-- HandleGatherData under the environment: only an exception raised directly
in its own try block reaches the in-band error path; the transport status is
OK on every path. -/
def handleGatherDataE (env : ExcEnv) (nid : String) (lo hi : Int) (s : Store)
    (peerItems : List DataItem) (peerNodes : List String) (now : Int)
    (req : DataRequest) : DataResponse × GrpcStatus :=
  match env.topExc with
  | some e =>
    ({ emptyDataResponse with
        success := false
        error_message := "Exception: " ++ e }, .ok)
  | none =>
    let route := extendRoute req.route_path nid
    let localItems := processForwardedItems lo hi (retrieveDataE env s) req
    let fan :=
      if req.forward_to_peers && decide (req.hop_count + 1 < req.max_hops) then
        forwardRequestToPeersE env peerItems peerNodes
      else ([], [])
    ({ request_id := req.request_id
       data_items := localItems ++ fan.1
       responder_id := nid
       route_path := route
       contributing_nodes := nid :: fan.2
       success := true
       error_message := ""
       timestamp := now
       processing_time := 0 }, .ok)

/-! ## Helper lemmas -/

theorem mem_intRange {lo hi k : Int} (h1 : lo ≤ k) (h2 : k ≤ hi) :
    k ∈ intRange lo hi := by
  unfold intRange
  have hmem : (k - lo).toNat ∈ List.range (hi + 1 - lo).toNat :=
    List.mem_range.mpr (by omega)
  have h3 : lo + (((k - lo).toNat : Nat) : Int)
      ∈ (List.range (hi + 1 - lo).toNat).map (fun i : Nat => lo + (i : Int)) :=
    List.mem_map_of_mem _ hmem
  have hk : lo + (((k - lo).toNat : Nat) : Int) = k := by omega
  rw [hk] at h3
  exact h3

theorem intRange_nil {a b : Int} (h : b < a) : intRange a b = [] := by
  unfold intRange
  rw [show (b + 1 - a).toNat = 0 by omega]
  rfl

theorem foldStore_not_mem (f : Int → DataItem) (keys : List Int) (s : Store)
    (k : Int) (h : k ∉ keys) :
    (keys.foldl (fun st kk => storeData st kk (f kk)) s) k = s k := by
  induction keys generalizing s with
  | nil => rfl
  | cons a as ih =>
    simp only [List.foldl_cons]
    rw [ih _ (fun hmem => h (List.mem_cons_of_mem a hmem))]
    have hne : ¬ (k = a) := fun hk => h (by rw [hk]; exact List.mem_cons_self a as)
    unfold storeData
    rw [if_neg hne]

theorem foldStore_mem (f : Int → DataItem) (keys : List Int) (s : Store)
    (k : Int) (h : k ∈ keys) :
    (keys.foldl (fun st kk => storeData st kk (f kk)) s) k
      = some (serializeDataItem (f k)) := by
  induction keys generalizing s with
  | nil => cases h
  | cons a as ih =>
    by_cases hk : k ∈ as
    · simpa only [List.foldl_cons] using ih _ hk
    · have hka : k = a := by
        rcases List.mem_cons.mp h with h1 | h1
        · exact h1
        · exact absurd h1 hk
      simp only [List.foldl_cons]
      rw [foldStore_not_mem f as _ k hk]
      unfold storeData
      rw [if_pos hka, hka]

/-- Retrieval from a seeded store returns the synthetic item of the key. -/
theorem retrieve_initializeTestData (node : String) (now lo hi key : Int)
    (h1 : lo ≤ key) (h2 : key ≤ hi) :
    retrieveData (initializeTestData node now lo hi emptyStore) key
      = some (createRandomDataItem node now key) := by
  unfold retrieveData initializeTestData
  rw [foldStore_mem _ _ _ _ (mem_intRange h1 h2)]
  simp [deserialize_serialize]

theorem cleanCache_length_le (now ttl : Int) (c : List CacheEntry) :
    (cleanCache now ttl c).length ≤ c.length :=
  List.length_filter_le _ _

theorem addToCache_length_le (now ttl : Int) (size : Nat) (c : List CacheEntry)
    (qid : String) (resp : QueryResponse) (h1 : 0 < size) (h2 : c.length ≤ size) :
    (addToCache now ttl size c qid resp).length ≤ size := by
  unfold addToCache
  have hc1 : (cleanCache now ttl c).length ≤ size :=
    le_trans (cleanCache_length_le now ttl c) h2
  by_cases hfull : size ≤ (cleanCache now ttl c).length
  · rw [if_pos hfull]
    simp only [List.length_append, List.length_tail, List.length_cons,
      List.length_nil]
    omega
  · rw [if_neg hfull]
    simp only [List.length_append, List.length_cons, List.length_nil]
    omega

theorem applyCacheOp_length_le (size : Nat) (ttl : Int) (c : List CacheEntry)
    (op : CacheOp) (h1 : 0 < size) (h2 : c.length ≤ size) :
    (applyCacheOp size ttl c op).length ≤ size := by
  cases op with
  | insert now qid resp => exact addToCache_length_le now ttl size c qid resp h1 h2
  | lookup now qid =>
    exact le_trans (cleanCache_length_le now ttl c) h2

/-- The scan loop returns exactly the first entry satisfying the match
predicate, in insertion order. -/
theorem scanCache_eq_find (now ttl : Int) (qid : String) (c : List CacheEntry) :
    scanCache now ttl qid c
      = (c.find? (fun e => e.query_id == qid && !isExpired now ttl e)).map
          (fun e => { e.response with from_cache := true }) := by
  induction c with
  | nil => rfl
  | cons e rest ih =>
    by_cases h1 : e.query_id = qid
    · by_cases h2 : isExpired now ttl e
      · rw [scanCache, if_pos h1, if_pos h2, ih,
          List.find?_cons_of_neg _ (by simp [h1, h2])]
      · rw [scanCache, if_pos h1, if_neg h2,
          List.find?_cons_of_pos _ (by simp [h1, h2])]
        rfl
    · rw [scanCache, if_neg h1, ih, List.find?_cons_of_neg _ (by simp [h1])]

/-- Sweeping expired entries first does not change which entry the scan
finds: the match predicate already rejects expired entries. -/
theorem find_cleanCache (now ttl : Int) (qid : String) (c : List CacheEntry) :
    (cleanCache now ttl c).find? (fun e => e.query_id == qid && !isExpired now ttl e)
      = c.find? (fun e => e.query_id == qid && !isExpired now ttl e) := by
  induction c with
  | nil => rfl
  | cons e rest ih =>
    by_cases h2 : isExpired now ttl e
    · rw [cleanCache, List.filter_cons_of_neg (by simp [h2]),
        List.find?_cons_of_neg _ (by simp [h2])]
      exact ih
    · rw [cleanCache, List.filter_cons_of_pos (by simp [h2])]
      by_cases h1 : e.query_id = qid
      · rw [List.find?_cons_of_pos _ (by simp [h1, h2]),
          List.find?_cons_of_pos _ (by simp [h1, h2])]
      · rw [List.find?_cons_of_neg _ (by simp [h1]),
          List.find?_cons_of_neg _ (by simp [h1])]
        exact ih

theorem flatten_map_eq_nil {α β : Type} {L : List α} {f : α → List β}
    (h : ∀ a ∈ L, f a = []) : (L.map f).flatten = [] := by
  induction L with
  | nil => rfl
  | cons a as ih =>
    simp only [List.map_cons, List.flatten_cons, h a (List.mem_cons_self a as),
      List.nil_append]
    exact ih (fun x hx => h x (List.mem_cons_of_mem a hx))

/-- A range query with inverted bounds contributes nothing at any node: the
clamped iteration is empty. -/
theorem processForwardedItems_inverted (lo hi : Int) (lookup : Int → Option DataItem)
    (req : DataRequest) (hq : req.query_type = "range")
    (hr : req.range_end < req.range_start) :
    processForwardedItems lo hi lookup req = [] := by
  unfold processForwardedItems
  have hlt : min req.range_end hi < max req.range_start lo :=
    lt_of_le_of_lt (min_le_left _ _) (lt_of_lt_of_le hr (le_max_left _ _))
  simp [hq, intRange_nil hlt]

/-- Local lookup of a range query with inverted bounds: no results, store
untouched. -/
theorem queryLocalData_inverted (nid : String) (lo hi now : Int) (s : Store)
    (req : QueryRequest) (hq : req.query_type = "range")
    (hr : req.range_end < req.range_start) :
    queryLocalData nid lo hi now s req = (s, []) := by
  unfold queryLocalData
  have hlt : min req.range_end hi < max req.range_start lo :=
    lt_of_le_of_lt (min_le_left _ _) (lt_of_lt_of_le hr (le_max_left _ _))
  simp [hq, intRange_nil hlt]

/-- Forwarding preserves the query type and range bounds. -/
theorem mkForwardedRequest_fields (nid : String) (req : DataRequest) :
    (mkForwardedRequest nid req).query_type = req.query_type
    ∧ (mkForwardedRequest nid req).range_start = req.range_start
    ∧ (mkForwardedRequest nid req).range_end = req.range_end := by
  exact ⟨rfl, rfl, rfl⟩

/-- No node of the federation returns any data item for a range request with
inverted bounds, at any recursion depth. -/
theorem gatherData_inverted (topo : Topo) (stores : Stores) :
    ∀ (fuel : Nat) (nid : String) (req : DataRequest),
      req.query_type = "range" → req.range_end < req.range_start →
      (gatherData topo stores fuel nid req).data_items = [] := by
  intro fuel
  induction fuel with
  | zero => intro nid req _ _; rfl
  | succ fuel ih =>
    intro nid req hq hr
    have hq2 : (mkForwardedRequest nid req).query_type = "range" := hq
    have hr2 : (mkForwardedRequest nid req).range_end
        < (mkForwardedRequest nid req).range_start := hr
    rw [gatherData]
    cases hfind : findNode topo nid with
    | none => rfl
    | some node =>
      simp only [hfind, processForwardedItems_inverted node.lo node.hi
        (retrieveData (stores nid)) req hq hr]
      split
      · split
        · simp only [List.nil_append]
          refine flatten_map_eq_nil ?_
          intro r hr3
          rcases List.mem_filter.mp hr3 with ⟨hrm, _⟩
          rcases List.mem_map.mp hrm with ⟨p, _, hpe⟩
          rw [← hpe]
          exact ih p (mkForwardedRequest nid req) hq2 hr2
        · rfl
      · rfl

/-! ## Concrete fixtures used by closed theorems -/

/-- A two-node topology: portal A owns [1, 2], peer B owns [3, 4]. -/
def topoAB : Topo := [⟨"A", 1, 2, ["B"]⟩, ⟨"B", 3, 4, ["A"]⟩]

/-- The seeding instant of the fixtures. -/
def now0 : Int := 1000

/-- Both nodes seeded at start-up. -/
def storesAB : Stores := fun nid =>
  if nid = "A" then initializeTestData "A" now0 1 2 emptyStore
  else if nid = "B" then initializeTestData "B" now0 3 4 emptyStore
  else emptyStore

/-- The portal process state of node A, with an empty cache. -/
def ctxA : PortalCtx :=
  { node_id := "A", lo := 1, hi := 2, is_portal := true, cache_size := 4,
    cache_ttl := 30, cache := [], peers := ["B"] }

/-- A write of "hello" to key 3, which node B owns. -/
def writeReq3 : QueryRequest :=
  { query_id := "q5", client_id := "c1", query_type := "write", key := 3,
    range_start := 0, range_end := 0, string_param := "hello" }

/-- A GatherData request whose fan-out stage is reached. -/
def gatherReqX : DataRequest :=
  { request_id := "r1", requester_id := "A", key := 1, query_type := "exact",
    range_start := 0, range_end := 0, timestamp := 0, hop_count := 0,
    max_hops := 3, route_path := "A", forward_to_peers := true,
    visited_nodes := ["A"], query_context := [] }

/-- The environment in which the fan-out stage raises an exception. -/
def envFanBoom : ExcEnv := { lookupExc := none, fanoutExc := some "boom", topExc := none }

/-- The environment in which the handler body itself raises. -/
def envTopBoom : ExcEnv := { lookupExc := none, fanoutExc := none, topExc := some "boom" }

/-- The portal process state of node B, which is not the portal. -/
def ctxB : PortalCtx :=
  { node_id := "B", lo := 3, hi := 4, is_portal := false, cache_size := 4,
    cache_ttl := 30, cache := [], peers := ["A"] }

/-- A sample runtime-constructed item. -/
def sampleItem : DataItem :=
  { key := 42, source_node := "A", timestamp := 1000, data_type := "user",
    metadata := [("created_by", "A"), ("version", "1.0")],
    value := .stringValue "hello" }

/-- A sample cached response. -/
def respA : QueryResponse :=
  { emptyQueryResponse with query_id := "q1", success := true }

/-- A cache holding two entries with the same query id, the first of which
expires before the lookup instant used in the witness. -/
def cacheW : List CacheEntry :=
  [{ query_id := "q1", response := respA, timestamp := 0 },
   { query_id := "q1", response := { respA with timestamp := 7 }, timestamp := 50 }]

/-- A sample operation trace on the cache. -/
def opsW : List CacheOp :=
  [.insert 0 "a" emptyQueryResponse, .insert 0 "b" emptyQueryResponse,
   .lookup 1 "a", .insert 50 "c" emptyQueryResponse]

/-! ## Claim theorems -/

/-- Claim C1 (code bug evaluation): a write on key 3, owned by peer B, is
fanned out to B, but ProcessForwardedRequest has no write branch, so its
range guard treats the request as out of range: B stores nothing and returns
nothing. QueryData still succeeds with empty results, and the key keeps its
seeded item instead of a string item holding the request string-param. -/
theorem write_fanout_noop_at_owner_peer :
    (handleQueryData topoAB storesAB ctxA now0 4 writeReq3).response.success = true
    ∧ (handleQueryData topoAB storesAB ctxA now0 4 writeReq3).response.results = []
    ∧ ((handleQueryData topoAB storesAB ctxA now0 4 writeReq3).stores "B") 3
        = storesAB "B" 3
    ∧ retrieveData ((handleQueryData topoAB storesAB ctxA now0 4 writeReq3).stores "B") 3
        = some (createRandomDataItem "B" now0 3)
    ∧ (createRandomDataItem "B" now0 3).value ≠ DataValue.stringValue "hello" := by
  refine ⟨rfl, rfl, rfl, ?_, by decide⟩
  have hsb : (handleQueryData topoAB storesAB ctxA now0 4 writeReq3).stores "B"
      = initializeTestData "B" now0 3 4 emptyStore := rfl
  rw [hsb]
  exact retrieve_initializeTestData "B" now0 3 4 3 (by omega) (by omega)

/-- Claim C3 counterexample: with an exception raised during the peer
fan-out, the GatherData reply does not carry success false with a non-empty
error; the exception is swallowed inside ForwardRequestToPeers. -/
theorem gather_swallowed_exception_counterexample :
    ¬ (((handleGatherDataE envFanBoom "B" 3 4 emptyStore [] [] 0 gatherReqX).1.success
          = false)
      ∧ (handleGatherDataE envFanBoom "B" 3 4 emptyStore [] [] 0 gatherReqX).1.error_message
          ≠ "") := by
  decide

/-- Claim C3 amended: exceptions raised inside the local store lookup or the
peer fan-out are caught at that level and never surface — the reply keeps
success true with an empty error and OK transport status; only an exception
reaching the top-level handler of HandleGatherData yields success false with
a non-empty in-band error, still with OK transport status. -/
theorem gather_exception_layering (env : ExcEnv) (nid : String) (lo hi : Int)
    (s : Store) (peerItems : List DataItem) (peerNodes : List String)
    (now : Int) (req : DataRequest) :
    (handleGatherDataE env nid lo hi s peerItems peerNodes now req).2 = .ok
    ∧ (env.topExc = none →
        (handleGatherDataE env nid lo hi s peerItems peerNodes now req).1.success = true
        ∧ (handleGatherDataE env nid lo hi s peerItems peerNodes now req).1.error_message = "")
    ∧ (∀ e, env.topExc = some e →
        (handleGatherDataE env nid lo hi s peerItems peerNodes now req).1.success = false
        ∧ (handleGatherDataE env nid lo hi s peerItems peerNodes now req).1.error_message
            = "Exception: " ++ e) := by
  cases henv : env.topExc with
  | none =>
    unfold handleGatherDataE
    rw [henv]
    exact ⟨rfl, fun _ => ⟨rfl, rfl⟩, fun e he => Option.noConfusion he⟩
  | some e0 =>
    unfold handleGatherDataE
    rw [henv]
    refine ⟨rfl, fun hn => Option.noConfusion hn, fun e he => ?_⟩
    injection he with h2
    subst h2
    exact ⟨rfl, rfl⟩

theorem gather_exception_layering_witness :
    envTopBoom.topExc = some "boom"
    ∧ (handleGatherDataE envTopBoom "B" 3 4 emptyStore [] [] 0 gatherReqX).1.success = false
    ∧ (handleGatherDataE envTopBoom "B" 3 4 emptyStore [] [] 0 gatherReqX).1.error_message
        = "Exception: boom" :=
  ⟨rfl, (gather_exception_layering envTopBoom "B" 3 4 emptyStore [] [] 0 gatherReqX).2.2
    "boom" rfl⟩

/-- Claim C4: every inter-node DataRequest satisfies, at emission,
hop-count not above max-hops and requester-id among visited-nodes (for a
forwarded request, assuming the incoming one satisfied the invariant and
taking emission under the hop guard); the portal first-hop request carries
hop-count 0, max-hops 3, visited-nodes [portal] and forward-to-peers true. -/
theorem emission_invariant (pid : String) (now : Int) (req : QueryRequest)
    (nid : String) (dreq : DataRequest)
    (hinv : dreq.requester_id ∈ dreq.visited_nodes)
    (hemit : (mkForwardedRequest nid dreq).hop_count
      < (mkForwardedRequest nid dreq).max_hops) :
    ((mkPortalDataRequest pid now req).hop_count = 0
      ∧ (mkPortalDataRequest pid now req).max_hops = 3
      ∧ (mkPortalDataRequest pid now req).visited_nodes = [pid]
      ∧ (mkPortalDataRequest pid now req).forward_to_peers = true
      ∧ (mkPortalDataRequest pid now req).hop_count
          ≤ (mkPortalDataRequest pid now req).max_hops
      ∧ (mkPortalDataRequest pid now req).requester_id
          ∈ (mkPortalDataRequest pid now req).visited_nodes)
    ∧ ((mkForwardedRequest nid dreq).hop_count ≤ (mkForwardedRequest nid dreq).max_hops
      ∧ (mkForwardedRequest nid dreq).requester_id
          ∈ (mkForwardedRequest nid dreq).visited_nodes) := by
  refine ⟨⟨rfl, rfl, rfl, rfl, Nat.zero_le _, ?_⟩, le_of_lt hemit, ?_⟩
  · simp [mkPortalDataRequest]
  · simp only [mkForwardedRequest]
    exact List.mem_append_left _ hinv

theorem emission_invariant_witness :
    gatherReqX.requester_id ∈ gatherReqX.visited_nodes
    ∧ (mkForwardedRequest "B" gatherReqX).hop_count
        < (mkForwardedRequest "B" gatherReqX).max_hops
    ∧ ((mkForwardedRequest "B" gatherReqX).hop_count
        ≤ (mkForwardedRequest "B" gatherReqX).max_hops
      ∧ (mkForwardedRequest "B" gatherReqX).requester_id
          ∈ (mkForwardedRequest "B" gatherReqX).visited_nodes) :=
  ⟨by decide, by decide,
    (emission_invariant "A" 0 writeReq3 "B" gatherReqX (by decide) (by decide)).2⟩

/-- Claim C5: starting from the empty cache, every insert (sweep, FIFO evict
at capacity, append) and every lookup (sweep) keeps the cache within its
configured size, for any positive cache size. -/
theorem cache_bound_preserved (size : Nat) (ttl : Int) (h : 0 < size)
    (ops : List CacheOp) :
    (ops.foldl (applyCacheOp size ttl) []).length ≤ size := by
  have aux : ∀ (l : List CacheOp) (c : List CacheEntry), c.length ≤ size →
      (l.foldl (applyCacheOp size ttl) c).length ≤ size := by
    intro l
    induction l with
    | nil => intro c hc; exact hc
    | cons op rest ih =>
      intro c hc
      exact ih _ (applyCacheOp_length_le size ttl c op h hc)
  exact aux ops [] (by simp)

theorem cache_bound_preserved_witness :
    0 < 1 ∧ (opsW.foldl (applyCacheOp 1 30) []).length ≤ 1 :=
  ⟨by decide, cache_bound_preserved 1 30 (by decide) opsW⟩

/-- Claim C6: the cache lookup returns the first non-expired entry matching
the query id in insertion order, with its from-cache flag set, and misses
(returning none, leaving the response untouched) when no live entry matches;
expiry is age strictly above the TTL. Insert does not deduplicate: below
capacity it adds one more entry matching the query id on top of every
surviving one. -/
theorem cache_lookup_first_live_match (now ttl : Int) (cache : List CacheEntry)
    (qid : String) (size : Nat) (resp : QueryResponse)
    (hroom : (cleanCache now ttl cache).length < size) :
    (checkCache now ttl cache qid).1
      = (cache.find? (fun e => e.query_id == qid && !isExpired now ttl e)).map
          (fun e => { e.response with from_cache := true })
    ∧ ((addToCache now ttl size cache qid resp).filter
          (fun e => e.query_id == qid)).length
      = ((cleanCache now ttl cache).filter (fun e => e.query_id == qid)).length + 1 := by
  constructor
  · unfold checkCache
    rw [scanCache_eq_find, find_cleanCache]
  · unfold addToCache
    rw [if_neg (by omega), List.filter_append]
    simp

theorem cache_lookup_first_live_match_witness :
    (cleanCache 60 30 cacheW).length < 4
    ∧ (checkCache 60 30 cacheW "q1").1
        = (cacheW.find? (fun e => e.query_id == "q1" && !isExpired 60 30 e)).map
            (fun e => { e.response with from_cache := true })
    ∧ ((addToCache 60 30 4 cacheW "q1" respA).filter
          (fun e => e.query_id == "q1")).length
        = ((cleanCache 60 30 cacheW).filter (fun e => e.query_id == "q1")).length + 1 :=
  ⟨by decide,
   (cache_lookup_first_live_match 60 30 cacheW "q1" 4 respA (by decide)).1,
   (cache_lookup_first_live_match 60 30 cacheW "q1" 4 respA (by decide)).2⟩

/-- Claim C7: the value codec round-trips (decode after encode is the
identity) on every DataItem, seeded or runtime-constructed, and
serialization is deterministic. -/
theorem codec_roundtrip_deterministic :
    (∀ it : DataItem, deserializeDataItem (serializeDataItem it) = it)
    ∧ (∀ a b : DataItem, a = b → serializeDataItem a = serializeDataItem b) :=
  ⟨deserialize_serialize, fun _ _ h => by rw [h]⟩

theorem codec_roundtrip_deterministic_witness :
    deserializeDataItem (serializeDataItem sampleItem) = sampleItem
    ∧ serializeDataItem sampleItem = serializeDataItem sampleItem :=
  ⟨codec_roundtrip_deterministic.1 sampleItem,
   codec_roundtrip_deterministic.2 sampleItem sampleItem rfl⟩

/-- Claim C8: QueryData on a non-portal node replies in-band with success
false and exactly "This node is not the portal", OK transport status, and
returns before touching the cache or any store, both left unchanged. -/
theorem nonportal_query_rejected (topo : Topo) (stores : Stores) (st : PortalCtx)
    (now : Int) (fuel : Nat) (req : QueryRequest) (h : st.is_portal = false) :
    (handleQueryData topo stores st now fuel req).response.success = false
    ∧ (handleQueryData topo stores st now fuel req).response.error_message
        = "This node is not the portal"
    ∧ (handleQueryData topo stores st now fuel req).status = .ok
    ∧ (handleQueryData topo stores st now fuel req).cache = st.cache
    ∧ (handleQueryData topo stores st now fuel req).stores = stores := by
  unfold handleQueryData
  rw [if_pos h]
  exact ⟨rfl, rfl, rfl, rfl, rfl⟩

theorem nonportal_query_rejected_witness :
    ctxB.is_portal = false
    ∧ (handleQueryData topoAB storesAB ctxB now0 4 writeReq3).response.error_message
        = "This node is not the portal" :=
  ⟨rfl, (nonportal_query_rejected topoAB storesAB ctxB now0 4 writeReq3 rfl).2.1⟩

/-- Claim C9: start-up seeding stores, for every key of the closed data
range, a DataItem with that key, this node as source, the data type selected
from the five-tag table by key mod 5, the created-by and version metadata,
and the value variant selected by key mod 5 (stated for nonnegative ranges,
where the C++ operator agrees with Int.emod). -/
theorem seeding_spec (node : String) (now lo hi key : Int)
    (_h0 : 0 ≤ lo) (h1 : lo ≤ key) (h2 : key ≤ hi) :
    retrieveData (initializeTestData node now lo hi emptyStore) key
      = some (createRandomDataItem node now key)
    ∧ (createRandomDataItem node now key).key = key
    ∧ (createRandomDataItem node now key).source_node = node
    ∧ (createRandomDataItem node now key).data_type
        = dataTypes.getD (key.emod 5).toNat ""
    ∧ (createRandomDataItem node now key).metadata
        = [("created_by", node), ("version", "1.0")]
    ∧ (key.emod 5 = 0 → (createRandomDataItem node now key).value
        = .stringValue ("String value for key " ++ toString key ++ " from " ++ node))
    ∧ (key.emod 5 = 1 → (createRandomDataItem node now key).value
        = .doubleValue ((key : ℚ) * (3 / 2)))
    ∧ (key.emod 5 = 2 → (createRandomDataItem node now key).value
        = .boolValue (key.emod 2 = 0))
    ∧ (key.emod 5 = 3 → (createRandomDataItem node now key).value
        = .objectValue
            { name := "Object_" ++ toString key
              tags := ["tag1", "tag2"]
              properties := [("property1", "value1"), ("property2", "value2")]
              created_at := now - 3600000
              updated_at := now })
    ∧ (key.emod 5 = 4 → (createRandomDataItem node now key).value
        = .binaryValue ("Binary data for key " ++ toString key)) := by
  refine ⟨retrieve_initializeTestData node now lo hi key h1 h2,
    rfl, rfl, rfl, rfl, ?_, ?_, ?_, ?_, ?_⟩
  all_goals intro hm
  all_goals simp [createRandomDataItem, hm]

theorem seeding_spec_witness :
    (0 : Int) ≤ 3 ∧ (3 : Int) ≤ 3 ∧ (3 : Int) ≤ 4
    ∧ retrieveData (initializeTestData "B" now0 3 4 emptyStore) 3
        = some (createRandomDataItem "B" now0 3) :=
  ⟨by decide, by decide, by decide,
   (seeding_spec "B" now0 3 4 3 (by decide) (by decide) (by decide)).1⟩

/-- Claim C10: a range query with inverted bounds contributes no items from
the local lookup (empty clamped iteration) nor from any GatherData
processing at any node, and QueryData returns success with an empty result
list rather than an error (given a cache miss for the query id). -/
theorem inverted_range_empty_success (topo : Topo) (stores : Stores)
    (st : PortalCtx) (now : Int) (fuel : Nat) (req : QueryRequest)
    (hportal : st.is_portal = true)
    (hq : req.query_type = "range") (hr : req.range_end < req.range_start)
    (hmiss : (checkCache now st.cache_ttl st.cache req.query_id).1 = none) :
    (queryLocalData st.node_id st.lo st.hi now (stores st.node_id) req).2 = []
    ∧ (∀ (lo hi : Int) (lookup : Int → Option DataItem) (dreq : DataRequest),
        dreq.query_type = "range" → dreq.range_end < dreq.range_start →
        processForwardedItems lo hi lookup dreq = [])
    ∧ (handleQueryData topo stores st now fuel req).response.success = true
    ∧ (handleQueryData topo stores st now fuel req).response.results = [] := by
  have hlocal := queryLocalData_inverted st.node_id st.lo st.hi now
    (stores st.node_id) req hq hr
  have hguard : ¬ (st.is_portal = false) := by rw [hportal]; decide
  refine ⟨by rw [hlocal],
    fun lo hi lookup dreq hq2 hr2 => processForwardedItems_inverted lo hi lookup dreq hq2 hr2,
    ?_, ?_⟩
  · unfold handleQueryData
    rw [if_neg hguard]
    simp only [hmiss]
  · unfold handleQueryData
    rw [if_neg hguard]
    simp only [hmiss, hlocal, List.nil_append]
    refine flatten_map_eq_nil ?_
    intro r hr3
    rcases List.mem_filter.mp hr3 with ⟨hrm, _⟩
    rcases List.mem_map.mp hrm with ⟨p, _, hpe⟩
    rw [← hpe]
    exact gatherData_inverted topo _ fuel p (mkPortalDataRequest st.node_id now req) hq hr

/-- An inverted range query against the fixture portal. -/
def invReq : QueryRequest :=
  { query_id := "q9", client_id := "c1", query_type := "range", key := 0,
    range_start := 4, range_end := 1, string_param := "" }

theorem inverted_range_empty_success_witness :
    ctxA.is_portal = true
    ∧ invReq.query_type = "range"
    ∧ invReq.range_end < invReq.range_start
    ∧ (checkCache now0 ctxA.cache_ttl ctxA.cache invReq.query_id).1 = none
    ∧ (handleQueryData topoAB storesAB ctxA now0 4 invReq).response.success = true
    ∧ (handleQueryData topoAB storesAB ctxA now0 4 invReq).response.results = [] :=
  ⟨rfl, rfl, by decide, rfl,
   (inverted_range_empty_success topoAB storesAB ctxA now0 4 invReq rfl rfl
     (by decide) rfl).2.2.1,
   (inverted_range_empty_success topoAB storesAB ctxA now0 4 invReq rfl rfl
     (by decide) rfl).2.2.2⟩

end Basecamp
